import Mathlib

/-!
Verification development for the SC2 co-op combat-effectiveness (CEV) repository.

The definitions below are a shallow embedding of the Python sources:
 * `src/src/data/yaml_loader.py`        — the `UnitData` / `WeaponData` / `CommanderData` records
 * `src/src/core/cev_calculator_v24.py` — the v2.4 CEV pipeline (`CEVCalculatorV24`)
 * `src/src/core/enhanced_cev_calculator.py` — the enhanced calculator's EHP / zero-cost guard
 * `src/src/analysis/benchmark_system_v2.py` — the benchmark/percentile engine

Python floats are modelled as exact rationals (`ℚ`); `math.sqrt` forces the
range factor and the final CEV value into `ℝ`.  Pandas/NumPy reductions that
can produce `NaN` on empty input are modelled with the `PFloat` type.
Record fields that no modelled function reads (names, build times, movement
stats, …) are omitted from the Lean structures.
-/

namespace SCEV

/-- Association-list lookup, modelling Python `dict.get(key)` (hit = first
binding, miss = `None`). -/
def dictGet {α : Type} (l : List (String × α)) (k : String) : Option α :=
  (l.find? (fun p => p.1 = k)).map (fun p => p.2)

/-- Python `dict.get(key, default)`. -/
def dictGetD {α : Type} (l : List (String × α)) (k : String) (d : α) : α :=
  (dictGet l k).getD d

/-- Characters before the first occurrence of `sep` (the whole list when
`sep` does not occur). -/
def takeUntilSep (sep : Char) : List Char → List Char
  | [] => []
  | c :: cs => if c = sep then [] else c :: takeUntilSep sep cs

/-- Python `s.split(sep)[0]`: the prefix of `s` before the first `sep`. -/
def headToken (s : String) (sep : Char) : String :=
  ⟨takeUntilSep sep s.data⟩

/-- Check whether the first list is a prefix of the second. -/
def hasPrefixChars : List Char → List Char → Bool
  | [], _ => true
  | _ :: _, [] => false
  | a :: as, b :: bs => a == b && hasPrefixChars as bs

/-- Check whether `pat` occurs as a contiguous sublist. -/
def containsChars (pat : List Char) : List Char → Bool
  | [] => pat.isEmpty
  | b :: bs => hasPrefixChars pat (b :: bs) || containsChars pat bs

/-- Python substring containment `pat in s`. -/
def strContains (s pat : String) : Bool :=
  containsChars pat.data s.data

/-- One entry of `UnitData.weapons` in `yaml_loader.py`: the per-unit weapon
configuration dicts with keys `weapon_ref`, `is_default`, `mode`.
`weapon_ref` is `Option` because `dict.get('weapon_ref')` may return `None`. -/
structure WeaponRef where
  weapon_ref : Option String
  is_default : Bool := false
  mode : Option String := none
deriving Repr, DecidableEq

/-- Model of `WeaponData` from `src/src/data/yaml_loader.py` (fields read by the v2.4
calculator).  `maelstrom_rounds` models
`upgrades["MaelstromRounds"].get("bonus_damage_main_target", 0)`: `some b`
when the `MaelstromRounds` upgrade is present (with `b = 0` when the bonus
key is absent), `none` when the upgrade is absent. -/
structure WeaponData where
  id : String
  damage : ℚ
  attacks : ℚ
  period : ℚ
  range : ℚ
  splash_radius : ℚ := 0
  attribute_bonus : List (String × ℚ) := []
  maelstrom_rounds : Option ℚ := none
deriving Repr, DecidableEq

/-- Model of `UnitData` from `src/src/data/yaml_loader.py` (fields read by the v2.4
calculator). -/
structure UnitData where
  id : String
  commander : String
  life : ℚ
  armor : ℚ
  shields : ℚ
  minerals : ℚ
  vespene : ℚ
  supply : ℚ
  radius : ℚ
  plane : String := "Ground"
  weapons : List WeaponRef := []
deriving Repr, DecidableEq

/-- Model of `CommanderData` from `src/src/data/yaml_loader.py`.  `no_supply_tax` is
not a declared field of the dataclass; `cev_calculator_v24.py` reads it with
`getattr(commander, 'no_supply_tax', False)`, so it is modelled as a flag
defaulting to `false`. -/
structure CommanderData where
  id : String
  mineral_gas_ratio : ℚ := 2.5
  population_cap : ℚ := 200
  no_supply_tax : Bool := false
deriving Repr, DecidableEq

/-- Model of `CalculationConfig` from `src/src/core/cev_calculator_v24.py`.
`mastery_config` defaults to `None` in the source and is modelled as the
empty table (the `AttributeError` corner reached when mastery is applied
with an unset table is not modelled; no modelled claim exercises it). -/
structure CalculationConfig where
  mineral_gas_ratio : ℚ := 2.5
  splash_factors : List (String × ℚ)
  operation_factors : List (String × ℚ)
  overkill_thresholds : List (ℚ × ℚ)
  mastery_config : List (String × List (String × ℚ)) := []
  scenario : String := "standard"
  population_tax_per_supply : ℚ := 12.5
deriving Repr, DecidableEq

/-- The default tables installed by `CalculationConfig.__post_init__`. -/
def defaultConfig : CalculationConfig where
  splash_factors :=
    [("SiegeTank", 1.25), ("Liberator_AA", 2.5), ("Liberator_AG", 1), ("default", 1)]
  operation_factors :=
    [("Wrathwalker", 1.1), ("ColossusTaldarim", 1.1), ("SiegeTank", 0.8),
     ("Impaler", 0.9), ("Liberator_AG", 0.75), ("Dragoon", 1), ("default", 1)]
  overkill_thresholds := [(200, 0.8), (150, 0.85), (100, 0.9), (0, 1)]

/-- Table lookup falling back to the table's own `"default"` entry, modelling
`cfg.xxx.get(key, cfg.xxx["default"])`.  (If `"default"` itself is missing the
source raises `KeyError`; both shipped tables contain it, and the fallback of
the fallback is 1 here.) -/
def tableGet (tbl : List (String × ℚ)) (k : String) : ℚ :=
  dictGetD tbl k (dictGetD tbl "default" 1)

/-- Model of `CEVCalculatorV24._get_mastery_attack_speed`:
`mastery_config.get(commander.id, {}).get("attack_speed", 0.0)`. -/
def getMasteryAttackSpeed (cfg : CalculationConfig) (cmdr : CommanderData) : ℚ :=
  dictGetD (dictGetD cfg.mastery_config cmdr.id []) "attack_speed" 0

/-- Model of `CEVCalculatorV24._get_splash_factor`.  When `splash_radius > 0`:
`unit_type = unit.id.split('_')[0]`; for `Liberator` with an explicit mode the
key `f"{unit_type}_{mode}"` is used; `SiegeTankSieged` is mapped to
`SiegeTank`; otherwise 1.0. -/
def getSplashFactor (cfg : CalculationConfig) (u : UnitData) (w : WeaponData)
    (mode : Option String) : ℚ :=
  if w.splash_radius > 0 then
    let t := headToken u.id '_'
    match mode with
    | some m =>
        if t = "Liberator" then tableGet cfg.splash_factors (t ++ "_" ++ m)
        else tableGet cfg.splash_factors (if t = "SiegeTankSieged" then "SiegeTank" else t)
    | none => tableGet cfg.splash_factors (if t = "SiegeTankSieged" then "SiegeTank" else t)
  else 1

/-- Model of `CEVCalculatorV24._calculate_effective_dps`:
`DPS_eff = ((damage×attacks + attribute bonus + MaelstromRounds bonus) × splash) / period`,
with the attack period shrunk by `1 + attack-speed mastery` first when
mastery is applied. -/
def calcEffectiveDps (cfg : CalculationConfig) (u : UnitData) (w : WeaponData)
    (apply_mastery : Bool) (cmdr : CommanderData) (mode : Option String)
    (scenario : String) : ℚ :=
  let damage := w.damage * w.attacks
  let splash := getSplashFactor cfg u w mode
  let period := if apply_mastery then w.period / (1 + getMasteryAttackSpeed cfg cmdr)
                else w.period
  let damage := if scenario = "vs_armored" then damage + dictGetD w.attribute_bonus "Armored" 0
                else if scenario = "vs_light" then damage + dictGetD w.attribute_bonus "Light" 0
                else damage
  let damage := damage + (w.maelstrom_rounds.getD 0)
  (damage * splash) / period

/-- Loop of `CEVCalculatorV24._calculate_overkill_penalty`: return the first
penalty whose threshold is not above the effective damage; fall through to
1.0 past the end of the table. -/
def overkillScan (effective_damage : ℚ) : List (ℚ × ℚ) → ℚ
  | [] => 1
  | (threshold, penalty) :: rest =>
      if effective_damage ≥ threshold then penalty else overkillScan effective_damage rest

/-- Model of `CEVCalculatorV24._calculate_overkill_penalty`: scan the
configured `(threshold, penalty)` table with `effective_damage =
damage × attacks`. -/
def calcOverkillPenalty (cfg : CalculationConfig) (w : WeaponData) : ℚ :=
  overkillScan (w.damage * w.attacks) cfg.overkill_thresholds

/-- The `overkill_thresholds` dict of `RefinedCEVCalculator`, as the loop
sees it after `sorted(self.overkill_thresholds.values(), reverse=True)`:
the `(threshold, factor)` pairs in descending threshold order. -/
def refinedOverkillThresholds : List (ℚ × ℚ) :=
  [(200, 0.8), (150, 0.85), (100, 0.9), (50, 1)]

/-- Model of `RefinedCEVCalculator.get_overkill_factor`: no penalty when the
damage is at most half the average target HP (default 100); otherwise the
first factor of the descending-sorted table whose threshold is not above the
damage (the loop is the same first-match scan as in v2.4); 1.0 past the end. -/
def getOverkillFactor (damage : ℚ) (target_avg_hp : ℚ) : ℚ :=
  if damage ≤ target_avg_hp * 0.5 then 1
  else overkillScan damage refinedOverkillThresholds

/-- Model of `CEVCalculatorV24._calculate_effective_hp`:
`EHP = life' / (1 - armor/(armor+10)) + shields × 1.4`, where `life'` applies
the Swann mech-life mastery (`mastery_config.get("Swann",{}).get("mech_life",0.30)`)
when mastery is on and the commander is Swann. -/
def calcEffectiveHp (cfg : CalculationConfig) (u : UnitData) (cmdr : CommanderData)
    (apply_mastery : Bool) : ℚ :=
  let life := if apply_mastery ∧ cmdr.id = "Swann" then
      u.life * (1 + dictGetD (dictGetD cfg.mastery_config "Swann" []) "mech_life" 0.3)
    else u.life
  let armor_reduction := u.armor / (u.armor + 10)
  let hp_eff := life / (1 - armor_reduction)
  let shield_eff := u.shields * 1.4
  hp_eff + shield_eff

/-- Model of `CEVCalculatorV24._calculate_operation_factor`: `Liberator` in `AG` mode
gets `operation_factors.get('Liberator_AG', 0.75)`; otherwise look up
`unit.id.split('_')[0]` (with the `ImpalerDehaka` / `SiegeTankSieged`
aliases) falling back to the table's `"default"` entry. -/
def calcOperationFactor (cfg : CalculationConfig) (u : UnitData)
    (mode : Option String) : ℚ :=
  if mode = some "AG" ∧ strContains u.id "Liberator" then
    dictGetD cfg.operation_factors "Liberator_AG" 0.75
  else
    let t := headToken u.id '_'
    let t := if t = "ImpalerDehaka" then "Impaler" else t
    let t := if t = "SiegeTankSieged" then "SiegeTank" else t
    tableGet cfg.operation_factors t

/-- The collision radius used by the range factor: air units are given the
fixed nominal radius 0.5, ground units their physical radius. -/
def effectiveRadius (u : UnitData) : ℚ :=
  if u.plane = "Air" then 1/2 else u.radius

/-- Model of `CEVCalculatorV24._calculate_range_factor`:
`F_range = sqrt(weapon.range / radius)` (the quotient is exact in `ℚ`, the
square root lives in `ℝ`). -/
noncomputable def calcRangeFactor (w : WeaponData) (u : UnitData) : ℝ :=
  Real.sqrt ((w.range / effectiveRadius u : ℚ) : ℝ)

/-- Model of `CEVCalculatorV24._calculate_effective_cost`:
`C_eff = minerals + vespene × α (+ supply × 12.5 unless the commander is
supply-tax exempt)`. -/
def calcEffectiveCost (cfg : CalculationConfig) (u : UnitData)
    (cmdr : CommanderData) : ℚ :=
  let base_cost := u.minerals + u.vespene * cmdr.mineral_gas_ratio
  if ¬ cmdr.no_supply_tax then
    base_cost + u.supply * cfg.population_tax_per_supply
  else base_cost

/-- Model of `CEVCalculatorV24._calculate_population_multiplier`: `μ = 200 / cap`. -/
def calcPopulationMultiplier (cmdr : CommanderData) : ℚ :=
  200 / cmdr.population_cap

/-- The v2.4 CEV formula (line 145 of `cev_calculator_v24.py`, before the
2-decimal rounding applied when packaging the result dict):
`CEV = (DPS_eff × Ψ × EHP × Ω × F_range) / C_eff`. -/
noncomputable def cevV24 (cfg : CalculationConfig) (u : UnitData) (w : WeaponData)
    (cmdr : CommanderData) (apply_mastery : Bool) (scenario : String)
    (mode : Option String) : ℝ :=
  ((calcEffectiveDps cfg u w apply_mastery cmdr mode scenario
      * calcOverkillPenalty cfg w
      * calcEffectiveHp cfg u cmdr apply_mastery
      * calcOperationFactor cfg u mode : ℚ) : ℝ)
    * calcRangeFactor w u
    / ((calcEffectiveCost cfg u cmdr : ℚ) : ℝ)

/-! ## The full aggregator (`CEVCalculatorV24.calculate_cev`) over loader state -/

/-- The error outcomes of `CEVCalculatorV24.calculate_cev`: the three
`ValueError`s raised for missing references, and the `ZeroDivisionError`
Python raises at `cev = (...)/c_eff` when the effective cost is zero. -/
inductive CalcError where
  | unitNotFound
  | commanderNotFound
  | weaponNotFound
  | zeroDivision
deriving Repr, DecidableEq

/-- The numeric fields of the result dict of `calculate_cev` (values are
modelled before the presentational `round(x, 2)`). -/
structure CevResult where
  cev : ℝ
  cev_per_pop : ℝ
  dps_eff : ℚ
  psi : ℚ
  ehp : ℚ
  omega : ℚ
  f_range : ℝ
  c_eff : ℚ
  mu : ℚ

/-- The reference tables held by `YAMLDataLoader` (`units`, `weapons`,
`commanders` dicts), passed to the calculator as `data_loader`. -/
structure LoaderState where
  units : List (String × UnitData)
  weapons : List (String × WeaponData)
  commanders : List (String × CommanderData)
deriving Repr, DecidableEq

/-- Model of `data_loader.get_weapon(weapon_ref)` where `weapon_ref` may be `None`. -/
def getWeaponRef (s : LoaderState) (ref : Option String) : Option WeaponData :=
  ref.bind (dictGet s.weapons)

/-- Model of `CEVCalculatorV24._get_weapon_for_mode`: no weapons → `None`; no mode →
the first `is_default` weapon config, else the first config; explicit mode →
the first config with that mode, else `None`. -/
def getWeaponForMode (s : LoaderState) (u : UnitData)
    (mode : Option String) : Option WeaponData :=
  if u.weapons.isEmpty then none
  else
    match mode with
    | none =>
        match u.weapons.find? (fun wc => wc.is_default) with
        | some wc => getWeaponRef s wc.weapon_ref
        | none =>
            match u.weapons.head? with
            | some wc => getWeaponRef s wc.weapon_ref
            | none => none
    | some m =>
        match u.weapons.find? (fun wc => wc.mode = some m) with
        | some wc => getWeaponRef s wc.weapon_ref
        | none => none

/-- Model of `CEVCalculatorV24.calculate_cev`, threaded through the loader state it
reads.  The unit record is deep-copied before use (`unit_copy`); since every
helper is read-only, the copy of an immutable value is the value itself, and
the loader state is returned unchanged on every path — error or success. -/
noncomputable def calculateCev (s : LoaderState) (cfg : CalculationConfig)
    (unit_id : String) (mode : Option String) (apply_mastery : Bool)
    (scenario : Option String) : Except CalcError CevResult × LoaderState :=
  let current_scenario := scenario.getD cfg.scenario
  match dictGet s.units unit_id with
  | none => (.error .unitNotFound, s)
  | some unit =>
    let unit_copy := unit
    match dictGet s.commanders unit_copy.commander with
    | none => (.error .commanderNotFound, s)
    | some commander =>
      match getWeaponForMode s unit_copy mode with
      | none => (.error .weaponNotFound, s)
      | some weapon_data =>
        let dps_eff := calcEffectiveDps cfg unit_copy weapon_data apply_mastery
          commander mode current_scenario
        let psi := calcOverkillPenalty cfg weapon_data
        let ehp := calcEffectiveHp cfg unit_copy commander apply_mastery
        let omega := calcOperationFactor cfg unit_copy mode
        let f_range := calcRangeFactor weapon_data unit_copy
        let c_eff := calcEffectiveCost cfg unit_copy commander
        let mu := calcPopulationMultiplier commander
        if c_eff = 0 then (.error .zeroDivision, s)
        else
          let cev := ((dps_eff * psi * ehp * omega : ℚ) : ℝ) * f_range / ((c_eff : ℚ) : ℝ)
          let effective_pop := unit_copy.supply * mu
          let cev_per_pop := if effective_pop > 0 then cev / ((effective_pop : ℚ) : ℝ) else 0
          (.ok { cev := cev, cev_per_pop := cev_per_pop, dps_eff := dps_eff,
                 psi := psi, ehp := ehp, omega := omega, f_range := f_range,
                 c_eff := c_eff, mu := mu }, s)

/-! ## Enhanced calculator (`src/src/core/enhanced_cev_calculator.py`) -/

/-- The fields of `Unit` (from `src/src/data/models.py`) read by
`EnhancedCEVCalculator.calculate_effective_hp`.  The dataclass has no
`shield_regen_rate` field (the source carries a TODO for it), so
`getattr(unit, 'shield_regen_rate', 0)` always yields 0. -/
structure EUnit where
  hp : ℚ
  shields : ℚ
  armor : ℚ
  attributes : List String := []
deriving Repr, DecidableEq

/-- Model of `CommanderConfig.modifiers` as consumed by the enhanced EHP formula. -/
structure ECommanderConfig where
  modifiers : List (String × ℚ) := []
deriving Repr, DecidableEq

/-- Model of `EnhancedCEVCalculator.calculate_effective_hp`: armor factor
`1/(1 - a/(a+10))` only when `armor > 0`; shields plus a regeneration credit
`rate × 10` where the rate is the hard default 2.0 exactly when the unit has
nonzero shields and a 灵能 or 机械 attribute (the `shield_regen_rate`
attribute itself is absent from the data model, hence 0); finally an
optional commander `hp` modifier scales the whole sum. -/
def enhancedEffectiveHp (u : EUnit) (cc : Option ECommanderConfig) : ℚ :=
  let hp_armor_factor := if u.armor > 0 then 1 / (1 - u.armor / (u.armor + 10)) else 1
  let effective_hp_part := u.hp * hp_armor_factor
  let shield_regen_rate : ℚ :=
    if u.shields > 0 ∧ ("灵能" ∈ u.attributes ∨ "机械" ∈ u.attributes) then 2 else 0
  let effective_shield_part := u.shields + shield_regen_rate * 10
  let effective_hp := effective_hp_part + effective_shield_part
  match cc with
  | some c =>
      match dictGet c.modifiers "hp" with
      | some m => effective_hp * m
      | none => effective_hp
  | none => effective_hp

/-- A float value as produced by the pandas/NumPy layers of the benchmark
engine and by the enhanced calculator: an ordinary (finite) value, `inf`
(`float('inf')`), or `nan` (empty-reduction results). -/
inductive PFloat where
  | nan
  | inf
  | val (q : ℚ)
deriving Repr, DecidableEq

/-- Multiplication of a `PFloat` by a positive rational constant
(`nan × c = nan`, `inf × c = inf` for `c > 0`). -/
def PFloat.scale (c : ℚ) : PFloat → PFloat
  | .nan => .nan
  | .inf => .inf
  | .val q => .val (q * c)

/-- Lines 256–261 of `EnhancedCEVCalculator.calculate_cev`: the zero-cost
guard.  `cev = total_dps × effective_hp × synergy / cost` when the cost is
positive, and the bare `float('inf')` otherwise. -/
def enhancedCevGuard (total_dps effective_hp synergy_bonus effective_cost : ℚ) : PFloat :=
  if effective_cost > 0 then
    .val (total_dps * effective_hp * synergy_bonus / effective_cost)
  else .inf

/-! ## Benchmark/percentile engine (`src/src/analysis/benchmark_system_v2.py`) -/

/-- One row of the mid-game reference population consumed by
`evaluate_new_unit` (columns `cev`, `effective_dps`, `effective_hp`,
`effective_cost`). -/
structure BenchRow where
  cev : ℚ
  effective_dps : ℚ
  effective_hp : ℚ
  effective_cost : ℚ
deriving Repr, DecidableEq

/-- Model of `(series < x).mean()` in pandas: the fraction of entries strictly below
`x`, and `NaN` when the series is empty (mean of an empty series). -/
def pandasLtMean (col : List ℚ) (x : ℚ) : PFloat :=
  if col.length = 0 then .nan
  else .val ((col.countP (fun v => decide (v < x)) : ℚ) / col.length)

/-- The three percentile fields of `BenchmarkSystemV2.evaluate_new_unit`.
`similar_units` and `balance_assessment` are modelled separately
(`assessBalance` below); note that no branch of the source rejects an empty
population — the pandas reductions silently produce `NaN`. -/
def evaluateNewUnit (pop : List BenchRow) (nu : BenchRow) :
    PFloat × PFloat × PFloat :=
  ((pandasLtMean (pop.map (fun r => r.cev)) nu.cev).scale 100,
   (pandasLtMean (pop.map (fun r => r.effective_dps)) nu.effective_dps).scale 100,
   (pandasLtMean (pop.map (fun r => r.effective_hp)) nu.effective_hp).scale 100)

/-- Model of `df['cev'].mean()`. -/
noncomputable def listMean (l : List ℝ) : ℝ := l.sum / l.length

/-- Model of `df['cev'].std()` — the pandas default is `ddof = 1`, i.e. the SAMPLE
standard deviation `sqrt(Σ (x - mean)² / (n - 1))`. -/
noncomputable def sampleStd (l : List ℝ) : ℝ :=
  Real.sqrt ((l.map (fun x => (x - listMean l) ^ 2)).sum / ((l.length : ℝ) - 1))

/-- The `if/elif` chain of `BenchmarkSystemV2._assess_balance`, as a function
of the deviation: status and recommendation strings exactly as in the
source. -/
noncomputable def classifyDeviation (d : ℝ) : String × String :=
  if |d| < 1 then ("平衡", "数值设计合理，无需调整")
  else if d > 2 then ("过强", "建议降低DPS或生存能力，或增加成本")
  else if d > 1 then ("略强", "建议小幅降低战斗属性或小幅增加成本")
  else if d < -2 then ("过弱", "建议提升DPS或生存能力，或降低成本")
  else ("略弱", "建议小幅提升战斗属性或小幅降低成本")

/-- Model of `BenchmarkSystemV2._assess_balance`:
`deviation = (new_cev - df.mean()) / df.std()` with the pandas (sample)
standard deviation, then the classification chain. -/
noncomputable def assessBalance (pop : List ℝ) (new_cev : ℝ) : String × String :=
  classifyDeviation ((new_cev - listMean pop) / sampleStd pop)

/-- Definition of `sqrt(Σ (x - mean)² / n)` — the POPULATION standard deviation named by
claim C2; the source does not use it. -/
noncomputable def popStd (l : List ℝ) : ℝ :=
  Real.sqrt ((l.map (fun x => (x - listMean l) ^ 2)).sum / (l.length : ℝ))

/-- The balance classifier exactly as claim C2 words it (population standard
deviation; buckets `|d| < 1`, `1 ≤ d < 2`, `d ≥ 2`, `-2 < d ≤ -1`,
`d ≤ -2`), emitting the source's status strings.  Used only to compare the
claim against `assessBalance`. -/
noncomputable def claimAssessBalance (pop : List ℝ) (new_cev : ℝ) : String :=
  let d := (new_cev - listMean pop) / popStd pop
  if |d| < 1 then "平衡"
  else if 1 ≤ d ∧ d < 2 then "略强"
  else if d ≥ 2 then "过强"
  else if -2 < d ∧ d ≤ -1 then "略弱"
  else "过弱"

/-! ## Concrete fixtures used by the closed theorems and witnesses -/

/-- A plain commander at the standard 200 population cap with the default
2.5 : 1 mineral/gas rate and no supply-tax exemption. -/
def cmdrStd : CommanderData := { id := "Std" }

/-- A plain single-shot weapon: 10 damage, period 1 s, range 0.75. -/
def wpnBasic : WeaponData :=
  { id := "W1", damage := 10, attacks := 1, period := 1, range := 3/4 }

/-- A plain weapon with range 6. -/
def wpnLong : WeaponData :=
  { id := "W6", damage := 10, attacks := 1, period := 1, range := 6 }

/-- A weapon whose base damage is zero. -/
def wpnZero : WeaponData :=
  { id := "W0", damage := 0, attacks := 1, period := 1, range := 6 }

/-- A melee weapon: maximum range 0. -/
def wpnMelee : WeaponData :=
  { id := "WM", damage := 30, attacks := 1, period := 1, range := 0 }

/-- Unit A of the C5 scenario: HP 100, armor 0, no shields, cost 100,
collision radius 0.75 (equal to the weapon range so that F_range = 1). -/
def unitArmor0 : UnitData :=
  { id := "VanillaA", commander := "Std", life := 100, armor := 0, shields := 0,
    minerals := 100, vespene := 0, supply := 0, radius := 3/4 }

/-- Unit B of the C5 scenario: identical to `unitArmor0` except armor 2. -/
def unitArmor2 : UnitData := { unitArmor0 with id := "VanillaB", armor := 2 }

/-- A ground unit with positive cost components and radius 1.5. -/
def benchUnit : UnitData :=
  { id := "Bench", commander := "Std", life := 100, armor := 1, shields := 0,
    minerals := 100, vespene := 25, supply := 2, radius := 3/2 }

/-- The same unit with 100 more minerals (all else equal). -/
def benchUnitDearer : UnitData := { benchUnit with minerals := 200 }

/-- A shielded unit with 50 shield points. -/
def shieldUnit50 : UnitData :=
  { id := "Shielded", commander := "Std", life := 100, armor := 0, shields := 50,
    minerals := 100, vespene := 0, supply := 2, radius := 1/2 }

/-- The same unit with 100 shield points (only the shields differ). -/
def shieldUnit100 : UnitData := { shieldUnit50 with shields := 100 }

/-- A melee ground unit. -/
def meleeUnit : UnitData :=
  { id := "Zergling", commander := "Std", life := 35, armor := 0, shields := 0,
    minerals := 25, vespene := 0, supply := 1/2, radius := 3/8 }

/-- A commander exempt from the population tax (`no_supply_tax` set, as for
Nova/Dehaka in the source). -/
def cmdrExempt : CommanderData := { id := "Nova", no_supply_tax := true }

/-- A completely free unit of the exempt commander: no minerals, no vespene,
and (its supply being tax-exempt) a v2.4 effective cost of exactly 0. -/
def freeUnit : UnitData :=
  { id := "FreeUnit", commander := "Nova", life := 50, armor := 0, shields := 0,
    minerals := 0, vespene := 0, supply := 6, radius := 1/2,
    weapons := [{ weapon_ref := some "W1", is_default := true }] }

/-- A loader holding the free unit, its weapon and its commander. -/
def loaderFree : LoaderState :=
  { units := [("FreeUnit", freeUnit)],
    weapons := [("W1", wpnBasic)],
    commanders := [("Nova", cmdrExempt)] }

/-- The reference population used against the C2 boundary claim: mean 100,
sample standard deviation exactly 10, population standard deviation
`sqrt(200/3) ≈ 8.165`. -/
noncomputable def popThree : List ℝ := [90, 100, 110]

/-- A two-row reference population for the percentile witness. -/
def benchPop1 : List BenchRow :=
  [{ cev := 50, effective_dps := 10, effective_hp := 100, effective_cost := 150 },
   { cev := 70, effective_dps := 20, effective_hp := 200, effective_cost := 300 }]

/-- A candidate row evaluated against `benchPop1`. -/
def benchNew : BenchRow :=
  { cev := 60, effective_dps := 15, effective_hp := 150, effective_cost := 200 }

/-- The fixed recommendation string attached to each balance status in
`_assess_balance`. -/
def recommendationFor (status : String) : String :=
  if status = "平衡" then "数值设计合理，无需调整"
  else if status = "过强" then "建议降低DPS或生存能力，或增加成本"
  else if status = "略强" then "建议小幅降低战斗属性或小幅增加成本"
  else if status = "过弱" then "建议提升DPS或生存能力，或降低成本"
  else "建议小幅提升战斗属性或小幅降低成本"

end SCEV

namespace SCEV

/-! ## Theorems -/

/-- C7: with the default threshold tables, the overkill penalty is the step
function selecting the factor of the highest threshold not exceeding the
weapon's per-hit damage (damage × attacks in v2.4; base damage in the
refined calculator at the default target HP 100), 1.0 below the lowest
threshold, and its value always lies in (0, 1]. -/
theorem claim7_overkill_penalty_step (w : WeaponData) :
    (calcOverkillPenalty defaultConfig w =
      if 200 ≤ w.damage * w.attacks then 0.8
      else if 150 ≤ w.damage * w.attacks then 0.85
      else if 100 ≤ w.damage * w.attacks then 0.9
      else 1)
    ∧ 0 < calcOverkillPenalty defaultConfig w
    ∧ calcOverkillPenalty defaultConfig w ≤ 1
    ∧ (∀ d : ℚ, getOverkillFactor d 100 =
      if 200 ≤ d then 0.8
      else if 150 ≤ d then 0.85
      else if 100 ≤ d then 0.9
      else 1)
    ∧ (∀ d : ℚ, 0 < getOverkillFactor d 100 ∧ getOverkillFactor d 100 ≤ 1) := by
  have hstep : calcOverkillPenalty defaultConfig w =
      if 200 ≤ w.damage * w.attacks then 0.8
      else if 150 ≤ w.damage * w.attacks then 0.85
      else if 100 ≤ w.damage * w.attacks then 0.9
      else 1 := by
    simp only [calcOverkillPenalty, defaultConfig, overkillScan, ge_iff_le]
    rcases le_or_lt 200 (w.damage * w.attacks) with h2 | h2
    · simp [h2]
    · rcases le_or_lt 150 (w.damage * w.attacks) with h15 | h15
      · simp [h2.not_le, h15]
      · rcases le_or_lt 100 (w.damage * w.attacks) with h10 | h10
        · simp [h2.not_le, h15.not_le, h10]
        · rcases le_or_lt 0 (w.damage * w.attacks) with h0 | h0
          · simp [h2.not_le, h15.not_le, h10.not_le, h0]
          · simp [h2.not_le, h15.not_le, h10.not_le, h0.not_le]
  have href : ∀ d : ℚ, getOverkillFactor d 100 =
      if 200 ≤ d then 0.8
      else if 150 ≤ d then 0.85
      else if 100 ≤ d then 0.9
      else 1 := by
    intro d
    simp only [getOverkillFactor, refinedOverkillThresholds, overkillScan, ge_iff_le]
    rcases le_or_lt d (100 * 0.5) with hlow | hlow
    · have : ¬ (200 : ℚ) ≤ d := by norm_num at hlow ⊢; linarith
      have h15 : ¬ (150 : ℚ) ≤ d := by norm_num at hlow ⊢; linarith
      have h10 : ¬ (100 : ℚ) ≤ d := by norm_num at hlow ⊢; linarith
      simp [hlow, this, h15, h10]
    · rcases le_or_lt 200 d with h2 | h2
      · simp [hlow.not_le, h2]
      · rcases le_or_lt 150 d with h15 | h15
        · simp [hlow.not_le, h2.not_le, h15]
        · rcases le_or_lt 100 d with h10 | h10
          · simp [hlow.not_le, h2.not_le, h15.not_le, h10]
          · have h50 : (50 : ℚ) ≤ d := by norm_num at hlow ⊢; linarith
            simp [hlow.not_le, h2.not_le, h15.not_le, h10.not_le, h50]
  refine ⟨hstep, ?_, ?_, href, ?_⟩
  · rw [hstep]; split_ifs <;> norm_num
  · rw [hstep]; split_ifs <;> norm_num
  · intro d
    rw [href]
    constructor <;> split_ifs <;> norm_num

/-- C4 (evidence of the code bug): `evaluate_new_unit` does not reject an
empty reference population — the three percentile fields silently come back
as `NaN` (the pandas mean of an empty boolean series), not as an error. -/
theorem claim4_empty_population_nan :
    evaluateNewUnit [] { cev := 50, effective_dps := 50, effective_hp := 50,
                         effective_cost := 50 }
      = (PFloat.nan, PFloat.nan, PFloat.nan) := rfl

/-- Properties of one strict-less-than percentile column: its exact value,
its bounds, and the tie / dominate / dominated special cases. -/
theorem pandasLtMean_scale_spec (col : List ℚ) (x : ℚ) (h : col ≠ []) :
    (pandasLtMean col x).scale 100
        = .val ((col.countP (fun v => decide (v < x)) : ℚ) / col.length * 100)
    ∧ 0 ≤ ((col.countP (fun v => decide (v < x)) : ℚ) / col.length * 100)
    ∧ ((col.countP (fun v => decide (v < x)) : ℚ) / col.length * 100) ≤ 100
    ∧ ((∀ v ∈ col, v = x) →
        ((col.countP (fun v => decide (v < x)) : ℚ) / col.length * 100) = 0)
    ∧ ((∀ v ∈ col, v < x) →
        ((col.countP (fun v => decide (v < x)) : ℚ) / col.length * 100) = 100)
    ∧ ((∀ v ∈ col, x < v) →
        ((col.countP (fun v => decide (v < x)) : ℚ) / col.length * 100) = 0) := by
  have hn : col.length ≠ 0 := fun hz => h (List.length_eq_zero.mp hz)
  have hnpos : (0 : ℚ) < col.length := by
    exact_mod_cast Nat.pos_of_ne_zero hn
  refine ⟨?_, ?_, ?_, ?_, ?_, ?_⟩
  · simp [pandasLtMean, PFloat.scale, hn]
  · positivity
  · have hc : (col.countP (fun v => decide (v < x)) : ℚ) ≤ (col.length : ℚ) := by
      exact_mod_cast List.countP_le_length _
    have : (col.countP (fun v => decide (v < x)) : ℚ) / col.length ≤ 1 :=
      (div_le_one hnpos).mpr hc
    nlinarith
  · intro hall
    have : col.countP (fun v => decide (v < x)) = 0 := by
      rw [List.countP_eq_zero]
      intro a ha
      simp [hall a ha]
    simp [this]
  · intro hall
    have : col.countP (fun v => decide (v < x)) = col.length := by
      rw [List.countP_eq_length]
      intro a ha
      simp [hall a ha]
    rw [this, div_self hnpos.ne']
    norm_num
  · intro hall
    have : col.countP (fun v => decide (v < x)) = 0 := by
      rw [List.countP_eq_zero]
      intro a ha
      simp [(hall a ha).asymm]
    simp [this]

/-- C3: against a non-empty population, each percentile produced by
`evaluate_new_unit` (cev, effective_dps, effective_hp) is the fraction of
population members strictly below the candidate, times 100; it always lies
in [0, 100]; a candidate tied with every member scores 0; one strictly above
every member scores 100; one below the population minimum scores 0. -/
theorem claim3_percentile_strict_fraction (pop : List BenchRow) (nu : BenchRow)
    (h : pop ≠ []) :
    ∃ pc pd ph : ℚ,
      evaluateNewUnit pop nu = (.val pc, .val pd, .val ph)
      ∧ pc = ((pop.map (fun r => r.cev)).countP (fun v => decide (v < nu.cev)) : ℚ)
              / pop.length * 100
      ∧ pd = ((pop.map (fun r => r.effective_dps)).countP
                (fun v => decide (v < nu.effective_dps)) : ℚ) / pop.length * 100
      ∧ ph = ((pop.map (fun r => r.effective_hp)).countP
                (fun v => decide (v < nu.effective_hp)) : ℚ) / pop.length * 100
      ∧ (0 ≤ pc ∧ pc ≤ 100) ∧ (0 ≤ pd ∧ pd ≤ 100) ∧ (0 ≤ ph ∧ ph ≤ 100)
      ∧ ((∀ r ∈ pop, r.cev = nu.cev) → pc = 0)
      ∧ ((∀ r ∈ pop, r.cev < nu.cev) → pc = 100)
      ∧ ((∀ r ∈ pop, nu.cev < r.cev) → pc = 0) := by
  have hc := pandasLtMean_scale_spec (pop.map (fun r => r.cev)) nu.cev
    (by simpa using h)
  have hd := pandasLtMean_scale_spec (pop.map (fun r => r.effective_dps))
    nu.effective_dps (by simpa using h)
  have hh := pandasLtMean_scale_spec (pop.map (fun r => r.effective_hp))
    nu.effective_hp (by simpa using h)
  rw [List.length_map] at hc hd hh
  refine ⟨_, _, _, ?_, rfl, rfl, rfl, ⟨hc.2.1, hc.2.2.1⟩, ⟨hd.2.1, hd.2.2.1⟩,
    ⟨hh.2.1, hh.2.2.1⟩, ?_, ?_, ?_⟩
  · show evaluateNewUnit pop nu = (_, _, _)
    rw [evaluateNewUnit, hc.1, hd.1, hh.1]
  · intro hall
    exact hc.2.2.2.1 (by
      intro v hv
      rcases List.mem_map.mp hv with ⟨r, hr, rfl⟩
      exact hall r hr)
  · intro hall
    exact hc.2.2.2.2.1 (by
      intro v hv
      rcases List.mem_map.mp hv with ⟨r, hr, rfl⟩
      exact hall r hr)
  · intro hall
    exact hc.2.2.2.2.2 (by
      intro v hv
      rcases List.mem_map.mp hv with ⟨r, hr, rfl⟩
      exact hall r hr)

/-- C6 counterexample: in the v2.4 survivability model the shield
contribution is `shields × 1.4`, so two units identical except for their
shield points (50 vs 100, both nonzero) differ in effective HP by 70, not by
the 50 shield points that "shields as a separate additive term plus a
shield-count-independent regeneration credit" would give. -/
theorem claim6_counterexample :
    calcEffectiveHp defaultConfig shieldUnit100 cmdrStd false
        - calcEffectiveHp defaultConfig shieldUnit50 cmdrStd false
      ≠ shieldUnit100.shields - shieldUnit50.shields := by
  norm_num [calcEffectiveHp, shieldUnit100, shieldUnit50, cmdrStd]

/-- C6 as amended: shields are an additive term separate from (and unscaled
by) the armor formula in both calculators, and a zero-shield unit gets no
shield or regeneration contribution; but the v2.4 credit is 0.4 × shields
(a flat 1.4 multiplier), while the enhanced calculator adds `rate × 10` with
the 10-second combat window hard-coded and `rate = 2.0` exactly when the
unit has nonzero shields and a 灵能 or 机械 attribute. -/
theorem claim6_amended :
    (∀ cfg (u : UnitData) cmdr mast (s : ℚ),
      calcEffectiveHp cfg { u with shields := s } cmdr mast
        = calcEffectiveHp cfg { u with shields := 0 } cmdr mast + s * 1.4)
    ∧ (∀ (u : EUnit) (a : ℚ),
      enhancedEffectiveHp { u with armor := a } none
          - enhancedEffectiveHp { u with armor := a, shields := 0 } none
        = u.shields
          + (if 0 < u.shields ∧ ("灵能" ∈ u.attributes ∨ "机械" ∈ u.attributes)
             then 2 else 0) * 10)
    ∧ (∀ (u : EUnit),
      enhancedEffectiveHp { u with shields := 0 } none
        = u.hp * (if 0 < u.armor then 1 / (1 - u.armor / (u.armor + 10)) else 1)) := by
  refine ⟨?_, ?_, ?_⟩
  · intro cfg u cmdr mast s
    simp only [calcEffectiveHp]
    ring
  · intro u a
    simp only [enhancedEffectiveHp, dictGet, gt_iff_lt, lt_self_iff_false, false_and,
      if_false]
    ring
  · intro u
    simp only [enhancedEffectiveHp, dictGet]
    norm_num

/-- Witness for C3: the percentile theorem applied to the concrete two-row
population `benchPop1` and candidate `benchNew`. -/
theorem claim3_witness :
    benchPop1 ≠ [] ∧
    (∃ pc pd ph : ℚ,
      evaluateNewUnit benchPop1 benchNew = (.val pc, .val pd, .val ph)
      ∧ pc = ((benchPop1.map (fun r => r.cev)).countP
                (fun v => decide (v < benchNew.cev)) : ℚ) / benchPop1.length * 100
      ∧ pd = ((benchPop1.map (fun r => r.effective_dps)).countP
                (fun v => decide (v < benchNew.effective_dps)) : ℚ)
              / benchPop1.length * 100
      ∧ ph = ((benchPop1.map (fun r => r.effective_hp)).countP
                (fun v => decide (v < benchNew.effective_hp)) : ℚ)
              / benchPop1.length * 100
      ∧ (0 ≤ pc ∧ pc ≤ 100) ∧ (0 ≤ pd ∧ pd ≤ 100) ∧ (0 ≤ ph ∧ ph ≤ 100)
      ∧ ((∀ r ∈ benchPop1, r.cev = benchNew.cev) → pc = 0)
      ∧ ((∀ r ∈ benchPop1, r.cev < benchNew.cev) → pc = 100)
      ∧ ((∀ r ∈ benchPop1, benchNew.cev < r.cev) → pc = 0)) :=
  ⟨by simp [benchPop1],
   claim3_percentile_strict_fraction benchPop1 benchNew (by simp [benchPop1])⟩

/-- C5: the v2.4 survivability model computes the armor-adjusted HP as
`hp / (1 - a/(a+10))`; at armor 0 the factor is exactly 1 so effective HP
reduces to `hp` plus the shield term; and in the two-unit scenario (HP 100,
equal cost and DPS, no shields, Ω = Ψ = F_range = 1) the armor-2 unit has
effective HP `100/(1-2/12) = 120` and exactly 1.2 times the CEV of the
armor-0 unit. -/
theorem claim5_armor_adjusted_hp (cfg : CalculationConfig) (u : UnitData)
    (cmdr : CommanderData) (hlife : 0 < u.life) (harmor : 0 ≤ u.armor) :
    calcEffectiveHp cfg u cmdr false
        = u.life / (1 - u.armor / (u.armor + 10)) + u.shields * 1.4
    ∧ calcEffectiveHp cfg u cmdr false = u.life * (u.armor + 10) / 10 + u.shields * 1.4
    ∧ (u.armor = 0 → calcEffectiveHp cfg u cmdr false = u.life + u.shields * 1.4)
    ∧ calcEffectiveHp defaultConfig unitArmor2 cmdrStd false = 120
    ∧ calcEffectiveHp defaultConfig unitArmor0 cmdrStd false = 100
    ∧ cevV24 defaultConfig unitArmor2 wpnBasic cmdrStd false "standard" none
        = 1.2 * cevV24 defaultConfig unitArmor0 wpnBasic cmdrStd false "standard" none := by
  have hform : calcEffectiveHp cfg u cmdr false
      = u.life / (1 - u.armor / (u.armor + 10)) + u.shields * 1.4 := by
    simp [calcEffectiveHp]
  have hden : u.armor + 10 ≠ 0 := by positivity
  have hclosed : calcEffectiveHp cfg u cmdr false
      = u.life * (u.armor + 10) / 10 + u.shields * 1.4 := by
    rw [hform]
    have h10 : 1 - u.armor / (u.armor + 10) = 10 / (u.armor + 10) := by
      field_simp
    rw [h10, div_div_eq_mul_div]
  have hB : calcEffectiveHp defaultConfig unitArmor2 cmdrStd false = 120 := by
    simp [calcEffectiveHp, unitArmor2, unitArmor0, cmdrStd] <;> norm_num
  have hA : calcEffectiveHp defaultConfig unitArmor0 cmdrStd false = 100 := by
    simp [calcEffectiveHp, unitArmor0, cmdrStd] <;> norm_num
  refine ⟨hform, hclosed, ?_, hB, hA, ?_⟩
  · intro h0
    rw [hform, h0]
    norm_num
  · have hrange2 : calcRangeFactor wpnBasic unitArmor2 = 1 := by
      rw [calcRangeFactor]
      have h1 : (wpnBasic.range / effectiveRadius unitArmor2 : ℚ) = 1 := by
        have hr : effectiveRadius unitArmor2 = 3/4 := rfl
        norm_num [wpnBasic, hr]
      rw [h1]
      simp
    have hrange0 : calcRangeFactor wpnBasic unitArmor0 = 1 := by
      rw [calcRangeFactor]
      have h1 : (wpnBasic.range / effectiveRadius unitArmor0 : ℚ) = 1 := by
        have hr : effectiveRadius unitArmor0 = 3/4 := rfl
        norm_num [wpnBasic, hr]
      rw [h1]
      simp
    have hdps2 : calcEffectiveDps defaultConfig unitArmor2 wpnBasic false cmdrStd
        none "standard" = 10 := by
      simp [calcEffectiveDps, getSplashFactor, wpnBasic, unitArmor2, unitArmor0,
        dictGetD, dictGet]
    have hdps0 : calcEffectiveDps defaultConfig unitArmor0 wpnBasic false cmdrStd
        none "standard" = 10 := by
      simp [calcEffectiveDps, getSplashFactor, wpnBasic, unitArmor0, dictGetD, dictGet]
    have hpsi : calcOverkillPenalty defaultConfig wpnBasic = 1 := by
      norm_num [calcOverkillPenalty, overkillScan, defaultConfig, wpnBasic]
    have homega2 : calcOperationFactor defaultConfig unitArmor2 none = 1 := by
      simp [calcOperationFactor, defaultConfig, unitArmor2, unitArmor0, tableGet,
        dictGetD, dictGet, headToken, takeUntilSep, strContains]
    have homega0 : calcOperationFactor defaultConfig unitArmor0 none = 1 := by
      simp [calcOperationFactor, defaultConfig, unitArmor0, tableGet,
        dictGetD, dictGet, headToken, takeUntilSep, strContains]
    have hcost2 : calcEffectiveCost defaultConfig unitArmor2 cmdrStd = 100 := by
      simp [calcEffectiveCost, defaultConfig, unitArmor2, unitArmor0, cmdrStd]
    have hcost0 : calcEffectiveCost defaultConfig unitArmor0 cmdrStd = 100 := by
      simp [calcEffectiveCost, defaultConfig, unitArmor0, cmdrStd]
    rw [cevV24, cevV24, hdps2, hdps0, hpsi, homega2, homega0, hB, hA, hrange2,
      hrange0, hcost2, hcost0]
    norm_num

/-- Witness for C5: the armor-formula theorem applied to `unitArmor2`. -/
theorem claim5_witness :
    (0 : ℚ) < unitArmor2.life ∧ (0 : ℚ) ≤ unitArmor2.armor ∧
    (calcEffectiveHp defaultConfig unitArmor2 cmdrStd false
        = unitArmor2.life / (1 - unitArmor2.armor / (unitArmor2.armor + 10))
          + unitArmor2.shields * 1.4
     ∧ calcEffectiveHp defaultConfig unitArmor2 cmdrStd false
        = unitArmor2.life * (unitArmor2.armor + 10) / 10 + unitArmor2.shields * 1.4
     ∧ (unitArmor2.armor = 0 → calcEffectiveHp defaultConfig unitArmor2 cmdrStd false
        = unitArmor2.life + unitArmor2.shields * 1.4)
     ∧ calcEffectiveHp defaultConfig unitArmor2 cmdrStd false = 120
     ∧ calcEffectiveHp defaultConfig unitArmor0 cmdrStd false = 100
     ∧ cevV24 defaultConfig unitArmor2 wpnBasic cmdrStd false "standard" none
        = 1.2 * cevV24 defaultConfig unitArmor0 wpnBasic cmdrStd false "standard" none) :=
  ⟨by norm_num [unitArmor2, unitArmor0], by norm_num [unitArmor2, unitArmor0],
   claim5_armor_adjusted_hp defaultConfig unitArmor2 cmdrStd
     (by norm_num [unitArmor2, unitArmor0]) (by norm_num [unitArmor2, unitArmor0])⟩

/-- C8 counterexample: for a weapon with zero base damage the v2.4 CEV is 0
at mineral cost 100 and stays 0 at mineral cost 200 (all else equal, both
with positive effective cost), so raising `mineral_cost` does not strictly
decrease the returned CEV. -/
theorem claim8_counterexample :
    ¬ (cevV24 defaultConfig benchUnitDearer wpnZero cmdrStd false "standard" none
        < cevV24 defaultConfig benchUnit wpnZero cmdrStd false "standard" none) := by
  have h0 : ∀ u : UnitData,
      calcEffectiveDps defaultConfig u wpnZero false cmdrStd none "standard" = 0 := by
    intro u
    simp [calcEffectiveDps, getSplashFactor, wpnZero, dictGetD, dictGet]
  have hc : ∀ u : UnitData,
      cevV24 defaultConfig u wpnZero cmdrStd false "standard" none = 0 := by
    intro u
    rw [cevV24, h0]
    norm_num
  rw [hc, hc]
  exact lt_irrefl 0

/-- C8 as amended: increasing `mineral_cost` (or `gas_cost`, given a positive
mineral/gas rate) strictly decreases the v2.4 CEV, all else equal, PROVIDED
the multiplicative numerator (DPS_eff × Ψ × EHP × Ω and the range ratio) is
positive; with a zero numerator (e.g. zero damage or zero range) the CEV is 0
on both sides. -/
theorem claim8_amended (cfg : CalculationConfig) (u : UnitData) (w : WeaponData)
    (cmdr : CommanderData) (mast : Bool) (scen : String) (mode : Option String)
    (dm : ℚ) (hdm : 0 < dm)
    (hcost : 0 < calcEffectiveCost cfg u cmdr)
    (hnum : 0 < calcEffectiveDps cfg u w mast cmdr mode scen * calcOverkillPenalty cfg w
        * calcEffectiveHp cfg u cmdr mast * calcOperationFactor cfg u mode)
    (hrange : 0 < w.range / effectiveRadius u)
    (hgas : 0 < cmdr.mineral_gas_ratio) :
    cevV24 cfg { u with minerals := u.minerals + dm } w cmdr mast scen mode
        < cevV24 cfg u w cmdr mast scen mode
    ∧ cevV24 cfg { u with vespene := u.vespene + dm } w cmdr mast scen mode
        < cevV24 cfg u w cmdr mast scen mode := by
  have hN : (0:ℝ) < ((calcEffectiveDps cfg u w mast cmdr mode scen
      * calcOverkillPenalty cfg w * calcEffectiveHp cfg u cmdr mast
      * calcOperationFactor cfg u mode : ℚ) : ℝ) * calcRangeFactor w u := by
    apply mul_pos
    · exact_mod_cast hnum
    · rw [calcRangeFactor]
      apply Real.sqrt_pos.mpr
      exact_mod_cast hrange
  have hc0 : (0:ℝ) < ((calcEffectiveCost cfg u cmdr : ℚ) : ℝ) := by
    exact_mod_cast hcost
  constructor
  · have hceq : calcEffectiveCost cfg { u with minerals := u.minerals + dm } cmdr
        = calcEffectiveCost cfg u cmdr + dm := by
      simp only [calcEffectiveCost]
      split <;> ring
    have e1 : calcEffectiveDps cfg { u with minerals := u.minerals + dm } w mast cmdr
        mode scen = calcEffectiveDps cfg u w mast cmdr mode scen := rfl
    have e2 : calcEffectiveHp cfg { u with minerals := u.minerals + dm } cmdr mast
        = calcEffectiveHp cfg u cmdr mast := rfl
    have e3 : calcOperationFactor cfg { u with minerals := u.minerals + dm } mode
        = calcOperationFactor cfg u mode := rfl
    have e4 : calcRangeFactor w { u with minerals := u.minerals + dm }
        = calcRangeFactor w u := rfl
    rw [cevV24, cevV24, e1, e2, e3, e4, hceq, Rat.cast_add]
    apply div_lt_div_of_pos_left hN hc0
    have hdmr : (0:ℝ) < (dm : ℝ) := by exact_mod_cast hdm
    linarith
  · have hceq : calcEffectiveCost cfg { u with vespene := u.vespene + dm } cmdr
        = calcEffectiveCost cfg u cmdr + dm * cmdr.mineral_gas_ratio := by
      simp only [calcEffectiveCost]
      split <;> ring
    have e1 : calcEffectiveDps cfg { u with vespene := u.vespene + dm } w mast cmdr
        mode scen = calcEffectiveDps cfg u w mast cmdr mode scen := rfl
    have e2 : calcEffectiveHp cfg { u with vespene := u.vespene + dm } cmdr mast
        = calcEffectiveHp cfg u cmdr mast := rfl
    have e3 : calcOperationFactor cfg { u with vespene := u.vespene + dm } mode
        = calcOperationFactor cfg u mode := rfl
    have e4 : calcRangeFactor w { u with vespene := u.vespene + dm }
        = calcRangeFactor w u := rfl
    rw [cevV24, cevV24, e1, e2, e3, e4, hceq, Rat.cast_add]
    apply div_lt_div_of_pos_left hN hc0
    have hprod : (0:ℝ) < ((dm * cmdr.mineral_gas_ratio : ℚ) : ℝ) := by
      exact_mod_cast mul_pos hdm hgas
    linarith

/-- Witness for C8 (amended): applied to `benchUnit` with the range-6 weapon
and a mineral/gas increment of 50. -/
theorem claim8_witness :
    (0 : ℚ) < 50
    ∧ 0 < calcEffectiveCost defaultConfig benchUnit cmdrStd
    ∧ 0 < calcEffectiveDps defaultConfig benchUnit wpnLong false cmdrStd none "standard"
        * calcOverkillPenalty defaultConfig wpnLong
        * calcEffectiveHp defaultConfig benchUnit cmdrStd false
        * calcOperationFactor defaultConfig benchUnit none
    ∧ 0 < wpnLong.range / effectiveRadius benchUnit
    ∧ 0 < cmdrStd.mineral_gas_ratio
    ∧ (cevV24 defaultConfig { benchUnit with minerals := benchUnit.minerals + 50 }
          wpnLong cmdrStd false "standard" none
        < cevV24 defaultConfig benchUnit wpnLong cmdrStd false "standard" none
      ∧ cevV24 defaultConfig { benchUnit with vespene := benchUnit.vespene + 50 }
          wpnLong cmdrStd false "standard" none
        < cevV24 defaultConfig benchUnit wpnLong cmdrStd false "standard" none) :=
  ⟨by norm_num,
   by simp [calcEffectiveCost, defaultConfig, benchUnit, cmdrStd] <;> norm_num,
   by
     have hd : calcEffectiveDps defaultConfig benchUnit wpnLong false cmdrStd none
         "standard" = 10 := by
       simp [calcEffectiveDps, getSplashFactor, wpnLong, benchUnit, dictGetD, dictGet]
     have hp : calcOverkillPenalty defaultConfig wpnLong = 1 := by
       norm_num [calcOverkillPenalty, overkillScan, defaultConfig, wpnLong]
     have he : calcEffectiveHp defaultConfig benchUnit cmdrStd false = 110 := by
       simp [calcEffectiveHp, benchUnit, cmdrStd] <;> norm_num
     have ho : calcOperationFactor defaultConfig benchUnit none = 1 := by
       simp [calcOperationFactor, defaultConfig, benchUnit, tableGet,
         dictGetD, dictGet, headToken, takeUntilSep, strContains]
     rw [hd, hp, he, ho]
     norm_num,
   by
     have hr : effectiveRadius benchUnit = 3/2 := rfl
     norm_num [wpnLong, hr],
   by norm_num [cmdrStd],
   claim8_amended defaultConfig benchUnit wpnLong cmdrStd false "standard" none 50
     (by norm_num)
     (by simp [calcEffectiveCost, defaultConfig, benchUnit, cmdrStd] <;> norm_num)
     (by
       have hd : calcEffectiveDps defaultConfig benchUnit wpnLong false cmdrStd none
           "standard" = 10 := by
         simp [calcEffectiveDps, getSplashFactor, wpnLong, benchUnit, dictGetD, dictGet]
       have hp : calcOverkillPenalty defaultConfig wpnLong = 1 := by
         norm_num [calcOverkillPenalty, overkillScan, defaultConfig, wpnLong]
       have he : calcEffectiveHp defaultConfig benchUnit cmdrStd false = 110 := by
         simp [calcEffectiveHp, benchUnit, cmdrStd] <;> norm_num
       have ho : calcOperationFactor defaultConfig benchUnit none = 1 := by
         simp [calcOperationFactor, defaultConfig, benchUnit, tableGet,
           dictGetD, dictGet, headToken, takeUntilSep, strContains]
       rw [hd, hp, he, ho]
       norm_num)
     (by
       have hr : effectiveRadius benchUnit = 3/2 := rfl
       norm_num [wpnLong, hr])
     (by norm_num [cmdrStd])⟩

/-- C10: a ground unit with a range-0 (melee) weapon has range factor
`sqrt(0 / radius) = 0`, and therefore the v2.4 CEV formula returns exactly 0
regardless of damage, effective HP and cost. -/
theorem claim10_zero_range_zeroes_cev (cfg : CalculationConfig) (u : UnitData)
    (w : WeaponData) (cmdr : CommanderData) (mast : Bool) (scen : String)
    (mode : Option String) (hrange : w.range = 0) (hground : u.plane ≠ "Air")
    (hradius : 0 < u.radius) (hcost : 0 < calcEffectiveCost cfg u cmdr) :
    calcRangeFactor w u = 0 ∧ cevV24 cfg u w cmdr mast scen mode = 0 := by
  have h1 : calcRangeFactor w u = 0 := by
    rw [calcRangeFactor, hrange]
    norm_num
  refine ⟨h1, ?_⟩
  rw [cevV24, h1]
  ring

/-- Witness for C10: the melee fixture (range-0 weapon on a ground unit with
positive radius and cost). -/
theorem claim10_witness :
    wpnMelee.range = 0
    ∧ meleeUnit.plane ≠ "Air"
    ∧ 0 < meleeUnit.radius
    ∧ 0 < calcEffectiveCost defaultConfig meleeUnit cmdrStd
    ∧ (calcRangeFactor wpnMelee meleeUnit = 0
       ∧ cevV24 defaultConfig meleeUnit wpnMelee cmdrStd false "standard" none = 0) :=
  ⟨rfl, by decide, by norm_num [meleeUnit],
   by simp [calcEffectiveCost, defaultConfig, meleeUnit, cmdrStd] <;> norm_num,
   claim10_zero_range_zeroes_cev defaultConfig meleeUnit wpnMelee cmdrStd false
     "standard" none rfl (by decide) (by norm_num [meleeUnit])
     (by simp [calcEffectiveCost, defaultConfig, meleeUnit, cmdrStd] <;> norm_num)⟩

/-- C9: a scoring call reads the loader's unit/weapon/commander tables but
returns them unchanged on every path — reference lookups failing, the
zero-cost error, or normal completion; the deep copy taken of the unit record
means no mastery adjustment ever touches the loader's data. -/
theorem claim9_scoring_leaves_loader_unchanged (s : LoaderState)
    (cfg : CalculationConfig) (uid : String) (mode : Option String) (mast : Bool)
    (scen : Option String) :
    (calculateCev s cfg uid mode mast scen).2 = s
    ∧ (calculateCev s cfg uid mode mast scen).2.units = s.units
    ∧ (calculateCev s cfg uid mode mast scen).2.weapons = s.weapons
    ∧ (calculateCev s cfg uid mode mast scen).2.commanders = s.commanders := by
  have h : (calculateCev s cfg uid mode mast scen).2 = s := by
    rw [calculateCev]
    cases hu : dictGet s.units uid with
    | none => rfl
    | some u =>
      cases hcm : dictGet s.commanders u.commander with
      | none => simp [hcm]
      | some c =>
        cases hw : getWeaponForMode s u mode with
        | none => simp [hcm, hw]
        | some w =>
          by_cases hc0 : calcEffectiveCost cfg u c = 0
          · simp [hcm, hw, hc0]
          · simp [hcm, hw, hc0]
  exact ⟨h, by rw [h], by rw [h], by rw [h]⟩

/-- C1 (evidence of the code bug): on a fully free unit the v2.4 aggregator
reaches `cev = (...)/c_eff` with `c_eff = 0` and raises an uncaught
`ZeroDivisionError` (modelled as the `zeroDivision` error outcome) instead of
returning a documented "unbounded" sentinel, while the enhanced calculator's
guard returns a bare `float('inf')`. -/
theorem claim1_free_unit_not_guarded :
    calculateCev loaderFree defaultConfig "FreeUnit" none false none
        = (.error .zeroDivision, loaderFree)
    ∧ (∀ total_dps effective_hp synergy_bonus : ℚ,
        enhancedCevGuard total_dps effective_hp synergy_bonus 0 = .inf) := by
  constructor
  · have hu : dictGet loaderFree.units "FreeUnit" = some freeUnit := by
      simp [dictGet, loaderFree]
    have hcm : dictGet loaderFree.commanders freeUnit.commander = some cmdrExempt := by
      simp [dictGet, loaderFree, freeUnit]
    have hw : getWeaponForMode loaderFree freeUnit none = some wpnBasic := by
      simp [getWeaponForMode, freeUnit, getWeaponRef, dictGet, loaderFree]
    have hc0 : calcEffectiveCost defaultConfig freeUnit cmdrExempt = 0 := by
      simp [calcEffectiveCost, defaultConfig, freeUnit, cmdrExempt]
    rw [calculateCev]
    simp [hu, hcm, hw, hc0]
  · intro total_dps effective_hp synergy_bonus
    simp [enhancedCevGuard]

/-- Interval characterization of the `_assess_balance` if/elif chain: the
chain's buckets, written as intervals of the deviation, together with the
fixed recommendation attached to each status. -/
theorem classifyDeviation_cases (d : ℝ) :
    ((classifyDeviation d).1 = "平衡" ↔ |d| < 1)
    ∧ ((classifyDeviation d).1 = "过强" ↔ 2 < d)
    ∧ ((classifyDeviation d).1 = "略强" ↔ (1 < d ∧ d ≤ 2))
    ∧ ((classifyDeviation d).1 = "过弱" ↔ d < -2)
    ∧ ((classifyDeviation d).1 = "略弱" ↔ ((-2 ≤ d ∧ d ≤ -1) ∨ d = 1))
    ∧ (classifyDeviation d).2 = recommendationFor (classifyDeviation d).1 := by
  unfold classifyDeviation
  split_ifs with h1 h2 h3 h4
  · obtain ⟨ha, hb⟩ := abs_lt.mp h1
    refine ⟨iff_of_true rfl h1, iff_of_false (by decide) (by linarith),
      iff_of_false (by decide) ?_, iff_of_false (by decide) (by linarith),
      iff_of_false (by decide) ?_, by simp [recommendationFor]⟩
    · rintro ⟨hx, -⟩
      linarith
    · rintro (⟨-, hy⟩ | rfl)
      · linarith
      · norm_num at h1
  · refine ⟨iff_of_false (by decide) h1, iff_of_true rfl h2,
      iff_of_false (by decide) ?_, iff_of_false (by decide) (by linarith),
      iff_of_false (by decide) ?_, by simp [recommendationFor]⟩
    · rintro ⟨-, hle⟩
      linarith
    · rintro (⟨-, hy⟩ | rfl)
      · linarith
      · linarith
  · refine ⟨iff_of_false (by decide) h1, iff_of_false (by decide) h2,
      iff_of_true rfl ⟨h3, not_lt.mp h2⟩, iff_of_false (by decide) (by linarith),
      iff_of_false (by decide) ?_, by simp [recommendationFor]⟩
    · rintro (⟨-, hy⟩ | rfl)
      · linarith
      · linarith
  · refine ⟨iff_of_false (by decide) h1, iff_of_false (by decide) h2,
      iff_of_false (by decide) ?_, iff_of_true rfl h4,
      iff_of_false (by decide) ?_, by simp [recommendationFor]⟩
    · rintro ⟨hx, -⟩
      linarith [not_lt.mp h3]
    · rintro (⟨hge, -⟩ | rfl)
      · linarith
      · linarith
  · have hle1 : d ≤ 1 := not_lt.mp h3
    have hgem2 : -2 ≤ d := not_lt.mp h4
    have habs : 1 ≤ |d| := not_lt.mp h1
    refine ⟨iff_of_false (by decide) h1, iff_of_false (by decide) h2,
      iff_of_false (by decide) ?_, iff_of_false (by decide) h4,
      iff_of_true rfl ?_, by simp [recommendationFor]⟩
    · rintro ⟨hx, -⟩
      linarith
    · rcases le_abs.mp habs with h1d | h1d
      · right
        exact le_antisymm hle1 h1d
      · left
        exact ⟨hgem2, by linarith⟩

/-- C2 counterexample: for the population [90, 100, 110] (mean 100, pandas
sample std exactly 10, population std `sqrt(200/3) < 10`) and candidate
cev 120, the source classifier computes deviation 2.0 with the SAMPLE
standard deviation and lands in the `deviation > 1` elif branch, returning
"略强" (slightly strong) — while the claim's rule (population std, bucket
`deviation ≥ 2` → overpowered, including exactly 2.0) demands "过强"
(overpowered). -/
theorem claim2_counterexample :
    (assessBalance popThree 120).1 = "略强"
    ∧ claimAssessBalance popThree 120 = "过强" := by
  have hmean : listMean popThree = 100 := by
    rw [listMean, popThree]
    norm_num
  have hsq : Real.sqrt 100 = 10 := by
    rw [show (100:ℝ) = 10 ^ 2 by norm_num]
    exact Real.sqrt_sq (by norm_num)
  constructor
  · have hvar : ((popThree.map (fun y => (y - listMean popThree) ^ 2)).sum
        / ((popThree.length : ℝ) - 1)) = 100 := by
      rw [hmean, popThree]
      norm_num
    have hstd : sampleStd popThree = 10 := by
      rw [sampleStd, hvar, hsq]
    rw [assessBalance, hmean, hstd]
    rw [show ((120:ℝ) - 100) / 10 = 2 by norm_num]
    rw [classifyDeviation]
    rw [if_neg (by rw [show |(2:ℝ)| = 2 from abs_of_pos (by norm_num)]; norm_num),
      if_neg (by norm_num), if_pos (by norm_num)]
  · have hpvar : ((popThree.map (fun y => (y - listMean popThree) ^ 2)).sum
        / (popThree.length : ℝ)) = 200 / 3 := by
      rw [hmean, popThree]
      norm_num
    have hpstd : popStd popThree = Real.sqrt (200 / 3) := by
      rw [popStd, hpvar]
    have hspos : 0 < Real.sqrt (200 / 3) := Real.sqrt_pos.mpr (by norm_num)
    have hsle : Real.sqrt (200 / 3) ≤ 10 := by
      calc Real.sqrt (200 / 3) ≤ Real.sqrt 100 := Real.sqrt_le_sqrt (by norm_num)
        _ = 10 := hsq
    have h2le : 2 ≤ ((120:ℝ) - listMean popThree) / popStd popThree := by
      rw [hmean, hpstd, le_div_iff hspos]
      linarith
    have h0lt : 0 < ((120:ℝ) - listMean popThree) / popStd popThree := by
      linarith
    rw [claimAssessBalance]
    rw [if_neg (by rw [abs_of_pos h0lt]; intro hlt; linarith),
      if_neg (by rintro ⟨-, hlt2⟩; linarith), if_pos (by exact h2le)]

/-- C2 as amended: the source classifier computes the deviation with the
pandas SAMPLE standard deviation (ddof = 1), and the if/elif chain yields:
balanced iff |d| < 1; overpowered iff d > 2 (strictly); slightly strong iff
1 < d ≤ 2; underpowered iff d < -2 (strictly); slightly weak otherwise,
i.e. for -2 ≤ d ≤ -1 and also at d exactly 1.  In particular deviation
exactly 2.0 is "slightly strong" and exactly -2.0 is "slightly weak", each
status carrying its fixed recommendation string. -/
theorem claim2_amended (pop : List ℝ) (x : ℝ) :
    ((assessBalance pop x).1 = "平衡"
        ↔ |(x - listMean pop) / sampleStd pop| < 1)
    ∧ ((assessBalance pop x).1 = "过强" ↔ 2 < (x - listMean pop) / sampleStd pop)
    ∧ ((assessBalance pop x).1 = "略强"
        ↔ (1 < (x - listMean pop) / sampleStd pop
            ∧ (x - listMean pop) / sampleStd pop ≤ 2))
    ∧ ((assessBalance pop x).1 = "过弱" ↔ (x - listMean pop) / sampleStd pop < -2)
    ∧ ((assessBalance pop x).1 = "略弱"
        ↔ ((-2 ≤ (x - listMean pop) / sampleStd pop
              ∧ (x - listMean pop) / sampleStd pop ≤ -1)
            ∨ (x - listMean pop) / sampleStd pop = 1))
    ∧ (assessBalance pop x).2 = recommendationFor (assessBalance pop x).1 := by
  have h := classifyDeviation_cases ((x - listMean pop) / sampleStd pop)
  rw [assessBalance]
  exact h

end SCEV
